import Mathlib

/-!
Verification of the FactChecker backend verdict engine.

This file gives a shallow embedding of the algorithmic core of the
FactChecker repository and proves properties about it:

* `services/image_forensics.py` — ELA scoring, CNN fallback, and the
  ELA/CNN combination rule (`_combine_results`, `_analyze_ela_patterns`,
  `_run_ela_analysis`, `_run_cnn_analysis`);
* `services/pdf_forensics.py` — risk scoring over detected findings and
  the verdict thresholds (`_combine_analysis_results`, `_determine_verdict`,
  `_get_risk_level`);
* `services/intelligence_analysis.py` — the credibility score
  (`_calculate_credibility_score`);
* `services/storage.py`, `api/routes/upload.py`, `api/routes/public.py` —
  fingerprinting and upload deduplication (`save_file`, `upload_file`,
  `_get_file_type`, the `/public/upload` handler);
* `api/routes/analyze.py` — the analysis-request handlers
  (`analyze_pdf`, `analyze_image`).

Conventions of the embedding: Python floats become `ℚ` (all constants in
the source are exact decimals), Python strings become `String`, database
rows become records in a `List`, and code that can raise is modelled with
`Except` at the boundary where the source has a `try/except`.  External
collaborators (the SHA-256 digest, the CNN forward pass, the image
decoding pipeline) are parameters of the embedding: the digest is an
arbitrary function of the byte content, and model inference is an
arbitrary fallible function.  Python string primitives that the kernel
cannot evaluate (`lower`, `startswith`, `endswith`) are modelled over the
character list of the string.
-/

namespace FactChecker

/-! ### String helpers (models of Python `str.lower`, `startswith`, `endswith`) -/

/-- Model of Python `str.lower`, over the character list. -/
def to_lower (s : String) : String := String.mk (s.data.map Char.toLower)

/-- Model of Python `str.startswith`, over the character list. -/
def starts_with (s pre : String) : Bool := List.isPrefixOf pre.data s.data

/-- Model of Python `str.endswith`, over the character list. -/
def ends_with (s suffix : String) : Bool := List.isSuffixOf suffix.data s.data

/-- Membership of `needle` as a contiguous substring of the character
list `haystack` — the meaning of Python `needle in haystack`. -/
def chars_contain (needle : List Char) : List Char → Bool
  | [] => List.isPrefixOf needle []
  | c :: rest => List.isPrefixOf needle (c :: rest) || chars_contain needle rest

/-- Model of the Python substring test `needle in haystack`. -/
def contains_substring (needle haystack : String) : Bool :=
  chars_contain needle.data haystack.data

/-! ### services/image_forensics.py -/

/-- `ela_weight = 0.6` in `ImageForensicsService._combine_results`. -/
def ela_weight : ℚ := 6/10

/-- `cnn_weight = 0.4` in `ImageForensicsService._combine_results`. -/
def cnn_weight : ℚ := 4/10

/-- `ImageForensicsService._combine_results` (image_forensics.py lines
340–357; the code after the first `if/else` return is unreachable and is
not part of the behaviour). -/
def combine_results (ela_result : String) (ela_confidence : ℚ)
    (cnn_result : String) (cnn_confidence : ℚ) : String × ℚ :=
  if ela_result = cnn_result then
    (ela_result, ela_confidence * ela_weight + cnn_confidence * cnn_weight)
  else if ela_confidence > cnn_confidence then
    (ela_result, ela_confidence * (9/10))
  else
    (cnn_result, cnn_confidence * (9/10))

/-- Core arithmetic of `ImageForensicsService._analyze_ela_patterns`
(image_forensics.py lines 229–239): `tampering_ratio` is the fraction of
grayscale-error pixels above `mean + 2·std`, `edge_density` the Canny
edge-pixel density of the error map; both are computed from the image by
numpy/cv2 and enter here as the two arguments. -/
def analyze_ela_patterns (tampering_ratio edge_density : ℚ) : ℚ :=
  let tampering_score := tampering_ratio * (7/10) + edge_density * (3/10)
  min 1 (tampering_score * 10)

/-- `ImageForensicsService._run_ela_analysis` (image_forensics.py lines
150–195).  The image decoding / re-encoding / scoring / heatmap pipeline
inside the `try` block is abstracted as an `Except` value carrying the
tampering score and the heatmap path on success; any exception raised in
the block lands in the `error` case, which the `except` handler turns
into `("authentic", 0.5, "")`. -/
def run_ela_analysis (ela_pipeline : Except String (ℚ × String)) : String × ℚ × String :=
  match ela_pipeline with
  | Except.error _ => ("authentic", 1/2, "")
  | Except.ok (tampering_score, heatmap_path) =>
    if tampering_score > 7/10 then
      ("suspicious", min (95/100) (6/10 + tampering_score * (3/10)), heatmap_path)
    else if tampering_score > 4/10 then
      ("suspicious", min (85/100) (5/10 + tampering_score * (3/10)), heatmap_path)
    else
      ("authentic", max (6/10) (9/10 - tampering_score * (3/10)), heatmap_path)

/-- The loaded CASIA CNN, as a black box: inference returns the predicted
class (0 = authentic, 1 = tampered) with its softmax confidence, or an
error when the forward pass (or the image load) raises. -/
structure CnnModel where
  infer : List ℕ → Except String (ℕ × ℚ)

/-- `ImageForensicsService._run_cnn_analysis` (image_forensics.py lines
304–338): `none` is `self.model is None` (dummy fallback), and the
`except` handler maps any raised exception to `("authentic", 0.5)`. -/
def run_cnn_analysis (model : Option CnnModel) (image : List ℕ) : String × ℚ :=
  match model with
  | none => ("authentic", 1/2)
  | some m =>
    match m.infer image with
    | Except.error _ => ("authentic", 1/2)
    | Except.ok (prediction, confidence) =>
      (if prediction = 1 then "suspicious" else "authentic", confidence)

/-! ### services/pdf_forensics.py -/

/-- Entry of `pdfid_results["suspicious_objects"]` (pdf_forensics.py
`_parse_pdfid_output`). -/
structure SuspiciousObject where
  type : String
  count : ℕ
  risk_level : String
  deriving DecidableEq

/-- Entry of `pikepdf_results["anomalies"]` (pdf_forensics.py
`_detect_anomalies`). -/
structure PdfAnomaly where
  type : String
  description : String
  severity : String
  deriving DecidableEq

/-- Entry of `structure["suspicious_elements"]` (pdf_forensics.py
`_analyze_pdf_structure`). -/
structure SuspiciousElement where
  element : String
  risk : String
  explanation : String
  deriving DecidableEq

/-- `high_risk` list in `PDFForensicsService._get_risk_level`. -/
def high_risk_types : List String :=
  ["/JS", "/JavaScript", "/Launch", "/SubmitForm", "/OpenAction", "/AA", "/URI"]

/-- `medium_risk` list in `PDFForensicsService._get_risk_level`. -/
def medium_risk_types : List String :=
  ["/AcroForm", "/EmbeddedFile", "/FileAttachment", "/ImportData", "/GoTo", "/GoToR"]

/-- `PDFForensicsService._get_risk_level` (pdf_forensics.py lines
371–381); Python `risk in obj_type` is substring containment, modelled
over character lists. -/
def get_risk_level (obj_type : String) : String :=
  if high_risk_types.any (fun r => contains_substring r obj_type) then "high"
  else if medium_risk_types.any (fun r => contains_substring r obj_type) then "medium"
  else "low"

/-- Points one suspicious object contributes in
`PDFForensicsService._combine_analysis_results` (lines 403–412). -/
def object_risk_points (o : SuspiciousObject) : ℕ :=
  if o.risk_level = "high" then 3
  else if o.risk_level = "medium" then 2
  else 1

/-- Points one pikepdf anomaly contributes in
`PDFForensicsService._combine_analysis_results` (lines 415–424). -/
def anomaly_risk_points (a : PdfAnomaly) : ℕ :=
  if a.severity = "high" then 3
  else if a.severity = "medium" then 2
  else 1

/-- The `risk_score` accumulation of
`PDFForensicsService._combine_analysis_results` (lines 399–431): three
loops over the suspicious objects, the anomalies, and the suspicious
structure elements (each structure element adds a flat 2). -/
def risk_score (objs : List SuspiciousObject) (anomalies : List PdfAnomaly)
    (elements : List SuspiciousElement) : ℕ :=
  let s1 := List.foldl (fun acc o => acc + object_risk_points o) 0 objs
  let s2 := List.foldl (fun acc a => acc + anomaly_risk_points a) s1 anomalies
  List.foldl (fun acc _ => acc + 2) s2 elements

/-- `len(analysis["summary"]["risk_indicators"])`: the loops of
`_combine_analysis_results` append exactly one detail line per suspicious
object, per anomaly, and per structure element. -/
def risk_indicator_count (objs : List SuspiciousObject) (anomalies : List PdfAnomaly)
    (elements : List SuspiciousElement) : ℕ :=
  objs.length + anomalies.length + elements.length

/-- `PDFForensicsService._determine_verdict` (pdf_forensics.py lines
446–465). -/
def determine_verdict (risk_score : ℕ) (total_indicators : ℕ) : String × ℚ :=
  if risk_score ≥ 8 ∨ total_indicators ≥ 5 then
    ("suspicious", min (95/100) (7/10 + (risk_score : ℚ) * (3/100)))
  else if risk_score ≥ 4 ∨ total_indicators ≥ 2 then
    ("suspicious", min (85/100) (6/10 + (risk_score : ℚ) * (4/100)))
  else if risk_score ≥ 2 then
    ("suspicious", min (75/100) (5/10 + (risk_score : ℚ) * (5/100)))
  else
    ("authentic", max (7/10) (9/10 - (risk_score : ℚ) * (1/10)))

/-- The `/JS` suspicious object of the C2 scenario, with its risk level
computed by `_get_risk_level` as `_parse_pdfid_output` does. -/
def js_object : SuspiciousObject :=
  { type := "/JS", count := 1, risk_level := get_risk_level "/JS" }

/-- The modification-before-creation anomaly appended by
`_detect_anomalies` (pdf_forensics.py lines 284–295): severity high. -/
def time_anomaly : PdfAnomaly :=
  { type := "time_anomaly"
    description := "Modification date is before creation date"
    severity := "high" }

/-! ### services/intelligence_analysis.py -/

/-- Result of `_analyze_sentiment`: a label and a score. -/
structure Sentiment where
  label : String
  score : ℚ

/-- `IntelligenceAnalysisService._calculate_credibility_score`
(intelligence_analysis.py lines 254–277). -/
def calculate_credibility_score (red_flags : List String) (sentiment : Sentiment)
    (anomaly_detected : Bool) : ℚ :=
  let base_score : ℚ := 10
  let base_score := base_score - (red_flags.length : ℚ) * (3/2)
  let base_score :=
    if sentiment.label = "NEGATIVE" then base_score - 2
    else if sentiment.label = "POSITIVE" ∧ sentiment.score > 8/10 then base_score - 1
    else base_score
  let base_score := if anomaly_detected then base_score - 3 else base_score
  max 0 (min 10 base_score)

/-! ### services/storage.py and api/routes/upload.py -/

/-- Row of the `files` table (models/file.py), restricted to the fields
the embedded routes read or write. -/
structure FileRecord where
  file_id : String
  file_hash : String
  file_type : String
  analysis_status : String
  verdict : Option String
  confidence_score : Option ℚ
  deriving DecidableEq

/-- Metadata dictionary returned by `StorageService.save_file`. -/
structure StorageMetadata where
  file_id : String
  filename : String
  original_filename : String
  file_type : String
  file_hash : String
  storage_path : String
  storage_type : String
  deriving DecidableEq

/-- `StorageService.save_file` (storage.py lines 24–71).  `sha256` stands
for `hashlib.sha256(content).hexdigest()` — a function of the byte
content only — and `fresh_uuid` for `str(uuid.uuid4())`; the actual
bucket upload is an external effect with no bearing on the returned
metadata. -/
def save_file (sha256 : List ℕ → String) (fresh_uuid : String) (content : List ℕ)
    (original_filename : String) (file_type : String) : StorageMetadata :=
  let file_hash := sha256 content
  let file_extension :=
    if original_filename.contains '.' then (original_filename.splitOn ".").getLastD ""
    else ""
  let storage_filename :=
    if file_extension ≠ "" then fresh_uuid ++ "." ++ file_extension else fresh_uuid
  { file_id := fresh_uuid
    filename := storage_filename
    original_filename := original_filename
    file_type := file_type
    file_hash := file_hash
    storage_path := file_type ++ "/" ++ storage_filename
    storage_type := "supabase" }

/-- Response body of `POST /upload`. -/
structure UploadResponse where
  file_id : String
  filename : String
  file_type : String
  file_size : ℕ
  status : String
  deriving DecidableEq

/-- `upload_file` in api/routes/upload.py (lines 220–291), the path after
size/type validation succeeded (`file_type` is the validated category):
save to storage, then unconditionally insert a new `files` row with
status `pending`.  There is no lookup by `file_hash` on this route. -/
def upload_file (sha256 : List ℕ → String) (fresh_uuid : String) (db : List FileRecord)
    (content : List ℕ) (filename : String) (file_type : String) :
    UploadResponse × List FileRecord :=
  let storage_metadata := save_file sha256 fresh_uuid content filename file_type
  let db_file : FileRecord :=
    { file_id := storage_metadata.file_id
      file_hash := storage_metadata.file_hash
      file_type := storage_metadata.file_type
      analysis_status := "pending"
      verdict := none
      confidence_score := none }
  ({ file_id := db_file.file_id
     filename := filename
     file_type := db_file.file_type
     file_size := content.length
     status := "uploaded" },
   db ++ [db_file])

/-! ### api/routes/public.py -/

/-- `_get_file_type` (public.py lines 23–42). -/
def get_file_type (filename : String) (content_type : String) : String :=
  if starts_with content_type "image/" then "image"
  else if starts_with content_type "video/" then "video"
  else if starts_with content_type "audio/" then "audio"
  else if content_type = "application/pdf" then "pdf"
  else
    let lower := to_lower filename
    if ends_with lower ".jpg" || ends_with lower ".jpeg" || ends_with lower ".png" ||
       ends_with lower ".bmp" || ends_with lower ".tiff" || ends_with lower ".webp" then "image"
    else if ends_with lower ".mp4" || ends_with lower ".avi" || ends_with lower ".mov" ||
       ends_with lower ".mkv" || ends_with lower ".webm" then "video"
    else if ends_with lower ".mp3" || ends_with lower ".wav" || ends_with lower ".flac" ||
       ends_with lower ".aac" || ends_with lower ".ogg" then "audio"
    else if ends_with lower ".pdf" then "pdf"
    else "unknown"

/-- Response of `POST /public/upload`. -/
inductive PublicUploadResponse where
  | unsupported (detail : String)
  | cached (file_id : String) (file_hash : String) (analysis_status : String)
  | uploaded (file_id : String) (file_hash : String) (analysis_started : Bool)
  deriving DecidableEq

/-- The `/public/upload` handler `upload_file` in public.py (lines
74–174): hash the content, classify the type (400 on `unknown`), then
look the hash up in the `files` table; a hit returns the existing row as
`cached` with no new row and no background task, a miss inserts a fresh
row with status `pending` and schedules background analysis for pdf and
image types.  The storage write preceding the lookup is an external
effect that does not touch the `files` table. -/
def public_upload (sha256 : List ℕ → String) (fresh_uuid : String) (db : List FileRecord)
    (content : List ℕ) (filename : String) (content_type : String) :
    PublicUploadResponse × List FileRecord :=
  let file_hash := sha256 content
  let file_type := get_file_type filename content_type
  if file_type = "unknown" then
    (PublicUploadResponse.unsupported ("Unsupported file type: " ++ content_type), db)
  else
    match db.find? (fun r => r.file_hash == file_hash) with
    | some existing_db =>
      (PublicUploadResponse.cached existing_db.file_id existing_db.file_hash
        existing_db.analysis_status, db)
    | none =>
      let db_file : FileRecord :=
        { file_id := fresh_uuid
          file_hash := file_hash
          file_type := file_type
          analysis_status := "pending"
          verdict := none
          confidence_score := none }
      (PublicUploadResponse.uploaded db_file.file_id file_hash
        (file_type == "pdf" || file_type == "image"), db ++ [db_file])

/-! ### api/routes/analyze.py -/

/-- What an analyze route returns to the caller. -/
inductive AnalyzeResponse where
  | http_error (code : ℕ) (detail : String)
  | already_processing (file_id : String)
  | started (file_id : String)
  deriving DecidableEq

/-- `analyze_pdf` in api/routes/analyze.py (lines 19–78).  Result:
response, the `files` table after the handler, and whether a background
analysis task was scheduled (`background_tasks.add_task`). -/
def analyze_pdf (db : List FileRecord) (file_id : String) :
    AnalyzeResponse × List FileRecord × Bool :=
  match db.find? (fun r => r.file_id == file_id) with
  | none => (AnalyzeResponse.http_error 404 "File not found", db, false)
  | some db_file =>
    if db_file.file_type ≠ "pdf" then
      (AnalyzeResponse.http_error 400 "File is not a PDF", db, false)
    else if db_file.analysis_status = "processing" then
      (AnalyzeResponse.already_processing file_id, db, false)
    else
      (AnalyzeResponse.started file_id,
       db.map (fun r =>
         if r.file_id = file_id then { r with analysis_status := "processing" } else r),
       true)

/-- `analyze_image` in api/routes/analyze.py (lines 80–139); identical to
`analyze_pdf` with the `image` type guard. -/
def analyze_image (db : List FileRecord) (file_id : String) :
    AnalyzeResponse × List FileRecord × Bool :=
  match db.find? (fun r => r.file_id == file_id) with
  | none => (AnalyzeResponse.http_error 404 "File not found", db, false)
  | some db_file =>
    if db_file.file_type ≠ "image" then
      (AnalyzeResponse.http_error 400 "File is not an image", db, false)
    else if db_file.analysis_status = "processing" then
      (AnalyzeResponse.already_processing file_id, db, false)
    else
      (AnalyzeResponse.started file_id,
       db.map (fun r =>
         if r.file_id = file_id then { r with analysis_status := "processing" } else r),
       true)

/-! ### Concrete fixtures used by witnesses and counterexamples -/

/-- Concrete stand-in digest for `hashlib.sha256`, used only to evaluate
the upload flows on concrete inputs (any function of the content works
for the statements proved here). -/
def sample_sha (c : List ℕ) : String := toString (List.foldl (fun a b => a + b) 0 c)

/-- A `files` row whose analysis already completed. -/
def completed_pdf_record : FileRecord :=
  { file_id := "f1", file_hash := "h1", file_type := "pdf",
    analysis_status := "completed", verdict := some "authentic", confidence_score := none }

/-- A `files` row currently being analyzed. -/
def processing_pdf_record : FileRecord :=
  { file_id := "f2", file_hash := "h2", file_type := "pdf",
    analysis_status := "processing", verdict := none, confidence_score := none }

/-- A `files` row of an image currently being analyzed. -/
def processing_image_record : FileRecord :=
  { file_id := "f3", file_hash := "h3", file_type := "image",
    analysis_status := "processing", verdict := none, confidence_score := none }

/-- A CNN model whose forward pass always raises. -/
def failing_model : CnnModel := ⟨fun _ => Except.error "inference failed"⟩

/-- First upload of content `[1, 2, 3]` through the `/upload` route, on
an empty `files` table. -/
def upload_first : UploadResponse × List FileRecord :=
  upload_file sample_sha "id-1" [] [1, 2, 3] "report.pdf" "pdf"

/-- Second upload of byte-identical content `[1, 2, 3]` (different
filename) through the `/upload` route, on the table left by
`upload_first`. -/
def upload_second : UploadResponse × List FileRecord :=
  upload_file sample_sha "id-2" upload_first.2 [1, 2, 3] "copy.pdf" "pdf"

/-! ### Helper lemmas -/

/-- Evaluated rational comparison used by witnesses. -/
lemma half_lt_nine_tenths : (1 : ℚ)/2 < 9/10 := by norm_num

/-- Evaluated rational comparison used by witnesses. -/
lemma seven_tenths_lt_nine_tenths : (7 : ℚ)/10 < 9/10 := by norm_num

/-- A left fold that only adds per-object points factors through the
initial accumulator. -/
lemma foldl_object_points (l : List SuspiciousObject) :
    ∀ n : ℕ, List.foldl (fun acc o => acc + object_risk_points o) n l
      = n + (l.map object_risk_points).sum := by
  induction l with
  | nil => intro n; simp
  | cons x xs ih =>
    intro n
    simp only [List.foldl_cons, List.map_cons, List.sum_cons]
    rw [ih (n + object_risk_points x)]
    omega

/-- A left fold that only adds per-anomaly points factors through the
initial accumulator. -/
lemma foldl_anomaly_points (l : List PdfAnomaly) :
    ∀ n : ℕ, List.foldl (fun acc a => acc + anomaly_risk_points a) n l
      = n + (l.map anomaly_risk_points).sum := by
  induction l with
  | nil => intro n; simp
  | cons x xs ih =>
    intro n
    simp only [List.foldl_cons, List.map_cons, List.sum_cons]
    rw [ih (n + anomaly_risk_points x)]
    omega

/-- A left fold that adds a flat 2 per element counts the list. -/
lemma foldl_element_points (l : List SuspiciousElement) :
    ∀ n : ℕ, List.foldl (fun acc _ => acc + 2) n l = n + 2 * l.length := by
  induction l with
  | nil => intro n; simp
  | cons x xs ih =>
    intro n
    simp only [List.foldl_cons, List.length_cons]
    rw [ih (n + 2)]
    omega

/-- Closed form of the `risk_score` accumulation. -/
lemma risk_score_eq (objs : List SuspiciousObject) (anomalies : List PdfAnomaly)
    (elements : List SuspiciousElement) :
    risk_score objs anomalies elements
      = (objs.map object_risk_points).sum + (anomalies.map anomaly_risk_points).sum
        + 2 * elements.length := by
  unfold risk_score
  rw [foldl_element_points, foldl_anomaly_points, foldl_object_points]
  omega

/-- Closed form of `_calculate_credibility_score` as a single clamped
expression. -/
lemma calculate_credibility_score_eq (red_flags : List String) (sentiment : Sentiment)
    (anomaly_detected : Bool) :
    calculate_credibility_score red_flags sentiment anomaly_detected
      = max 0 (min 10 (10 - (3/2) * (red_flags.length : ℚ)
          - (if sentiment.label = "NEGATIVE" then 2
             else if sentiment.label = "POSITIVE" ∧ sentiment.score > 8/10 then 1 else 0)
          - (if anomaly_detected then 3 else 0))) := by
  simp only [calculate_credibility_score]
  split_ifs <;> exact congrArg (max 0) (congrArg (min 10) (by ring))

/-- A `find?` that misses the first list continues in the second. -/
lemma find?_append_none {α : Type} {p : α → Bool} {l1 : List α} (l2 : List α)
    (h : l1.find? p = none) : (l1 ++ l2).find? p = l2.find? p := by
  rw [List.find?_append, h, Option.none_or]

/-- Characterization of `/public/upload` on content whose fingerprint is
not yet in the `files` table: a fresh `pending` row is inserted. -/
lemma public_upload_new (sha256 : List ℕ → String) (fresh_uuid : String)
    (db : List FileRecord) (content : List ℕ) (filename content_type : String)
    (h1 : get_file_type filename content_type ≠ "unknown")
    (h2 : db.find? (fun r => r.file_hash == sha256 content) = none) :
    public_upload sha256 fresh_uuid db content filename content_type
      = (PublicUploadResponse.uploaded fresh_uuid (sha256 content)
           (get_file_type filename content_type == "pdf"
             || get_file_type filename content_type == "image"),
         db ++ [{ file_id := fresh_uuid
                  file_hash := sha256 content
                  file_type := get_file_type filename content_type
                  analysis_status := "pending"
                  verdict := none
                  confidence_score := none }]) := by
  simp only [public_upload]
  rw [if_neg h1, h2]

/-- Characterization of `/public/upload` on content whose fingerprint is
already in the `files` table: the existing row is returned as cached and
the table is untouched. -/
lemma public_upload_cached (sha256 : List ℕ → String) (fresh_uuid : String)
    (db : List FileRecord) (content : List ℕ) (filename content_type : String)
    (f : FileRecord)
    (h1 : get_file_type filename content_type ≠ "unknown")
    (h2 : db.find? (fun r => r.file_hash == sha256 content) = some f) :
    public_upload sha256 fresh_uuid db content filename content_type
      = (PublicUploadResponse.cached f.file_id f.file_hash f.analysis_status, db) := by
  simp only [public_upload]
  rw [if_neg h1, h2]

/-- Reduction of `analyze_pdf` once the row lookup hit. -/
lemma analyze_pdf_some (db : List FileRecord) (fid : String) (f : FileRecord)
    (hfind : db.find? (fun r => r.file_id == fid) = some f) :
    analyze_pdf db fid
      = if f.file_type ≠ "pdf" then
          (AnalyzeResponse.http_error 400 "File is not a PDF", db, false)
        else if f.analysis_status = "processing" then
          (AnalyzeResponse.already_processing fid, db, false)
        else
          (AnalyzeResponse.started fid,
           db.map (fun r =>
             if r.file_id = fid then { r with analysis_status := "processing" } else r),
           true) := by
  unfold analyze_pdf
  rw [hfind]

/-- Reduction of `analyze_image` once the row lookup hit. -/
lemma analyze_image_some (db : List FileRecord) (fid : String) (f : FileRecord)
    (hfind : db.find? (fun r => r.file_id == fid) = some f) :
    analyze_image db fid
      = if f.file_type ≠ "image" then
          (AnalyzeResponse.http_error 400 "File is not an image", db, false)
        else if f.analysis_status = "processing" then
          (AnalyzeResponse.already_processing fid, db, false)
        else
          (AnalyzeResponse.started fid,
           db.map (fun r =>
             if r.file_id = fid then { r with analysis_status := "processing" } else r),
           true) := by
  unfold analyze_image
  rw [hfind]

/-! ### Claim theorems -/

/-- C1: the image combination rule.  When ELA and classifier agree on the
category, the combined confidence is `0.6·e + 0.4·c` with the category
unchanged; when they disagree, the category of the strictly
higher-confidence signal wins with its confidence scaled by `0.9`.  In
particular ELA=(suspicious, 0.9) with classifier=(authentic, 0.5)
combines to (suspicious, 0.81), and ELA=(authentic, 0.8) with
classifier=(authentic, 0.6) combines to (authentic, 0.72). -/
theorem combine_results_claim :
    (∀ (c : String) (e k : ℚ), combine_results c e c k = (c, (6/10) * e + (4/10) * k)) ∧
    (∀ (r1 r2 : String) (e k : ℚ), r1 ≠ r2 → k < e →
      combine_results r1 e r2 k = (r1, (9/10) * e)) ∧
    (∀ (r1 r2 : String) (e k : ℚ), r1 ≠ r2 → e < k →
      combine_results r1 e r2 k = (r2, (9/10) * k)) ∧
    combine_results "suspicious" (9/10) "authentic" (1/2) = ("suspicious", 81/100) ∧
    combine_results "authentic" (8/10) "authentic" (6/10) = ("authentic", 72/100) := by
  refine ⟨?_, ?_, ?_, ?_, ?_⟩
  · intro c e k
    unfold combine_results ela_weight cnn_weight
    rw [if_pos rfl]
    exact congrArg (Prod.mk c) (by ring)
  · intro r1 r2 e k hne h
    unfold combine_results
    rw [if_neg hne, if_pos h]
    exact congrArg (Prod.mk r1) (mul_comm e (9/10))
  · intro r1 r2 e k hne h
    unfold combine_results
    rw [if_neg hne, if_neg (asymm h)]
    exact congrArg (Prod.mk r2) (mul_comm k (9/10))
  · unfold combine_results
    rw [if_neg (by decide), if_pos (by norm_num)]
    norm_num
  · unfold combine_results ela_weight cnn_weight
    rw [if_pos rfl]
    norm_num

/-- Witness for C1: the disagreement branch applied at
ELA=(suspicious, 0.9), classifier=(authentic, 0.5). -/
theorem combine_results_claim_witness :
    ("suspicious" ≠ "authentic" ∧ (1 : ℚ)/2 < 9/10) ∧
    combine_results "suspicious" (9/10) "authentic" (1/2) = ("suspicious", (9/10) * (9/10)) :=
  ⟨⟨by decide, half_lt_nine_tenths⟩,
   combine_results_claim.2.1 "suspicious" "authentic" (9/10) (1/2) (by decide)
     half_lt_nine_tenths⟩

/-- C2: the document verdict thresholds.  The four buckets of
`_determine_verdict` in the order the code tests them; `risk_score = 8`
lands in the top bucket for every indicator count while `risk_score = 7`
with fewer than 5 indicators lands in the second; and the scenario of one
high-risk `/JS` construct plus one modification-before-creation anomaly
(risk score 3+3=6, two indicators) yields (suspicious, 0.84). -/
theorem determine_verdict_claim :
    (∀ s n : ℕ, 8 ≤ s ∨ 5 ≤ n →
      determine_verdict s n = ("suspicious", min (95/100) (7/10 + (s : ℚ) * (3/100)))) ∧
    (∀ s n : ℕ, s < 8 → n < 5 → 4 ≤ s ∨ 2 ≤ n →
      determine_verdict s n = ("suspicious", min (85/100) (6/10 + (s : ℚ) * (4/100)))) ∧
    (∀ s n : ℕ, s < 8 → n < 5 → s < 4 → n < 2 → 2 ≤ s →
      determine_verdict s n = ("suspicious", min (75/100) (5/10 + (s : ℚ) * (5/100)))) ∧
    (∀ s n : ℕ, s < 2 → n < 2 →
      determine_verdict s n = ("authentic", max (7/10) (9/10 - (s : ℚ) * (1/10)))) ∧
    (∀ n : ℕ, determine_verdict 8 n = ("suspicious", 94/100)) ∧
    (∀ n : ℕ, n < 5 → determine_verdict 7 n = ("suspicious", 85/100)) ∧
    determine_verdict (risk_score [js_object] [time_anomaly] [])
        (risk_indicator_count [js_object] [time_anomaly] []) = ("suspicious", 84/100) := by
  refine ⟨?_, ?_, ?_, ?_, ?_, ?_, ?_⟩
  · intro s n h
    unfold determine_verdict
    rw [if_pos h]
  · intro s n h1 h2 h3
    unfold determine_verdict
    rw [if_neg (by omega), if_pos h3]
  · intro s n h1 h2 h3 h4 h5
    unfold determine_verdict
    rw [if_neg (by omega), if_neg (by omega), if_pos h5]
  · intro s n h1 h2
    unfold determine_verdict
    rw [if_neg (by omega), if_neg (by omega), if_neg (by omega)]
  · intro n
    unfold determine_verdict
    rw [if_pos (Or.inl (by norm_num))]
    exact congrArg (Prod.mk "suspicious") (by norm_num [min_def])
  · intro n h
    unfold determine_verdict
    rw [if_neg (by omega), if_pos (Or.inl (by norm_num))]
    exact congrArg (Prod.mk "suspicious") (by norm_num [min_def])
  · have hs : risk_score [js_object] [time_anomaly] [] = 6 := by decide
    have hn : risk_indicator_count [js_object] [time_anomaly] [] = 2 := by decide
    rw [hs, hn]
    unfold determine_verdict
    rw [if_neg (by omega), if_pos (Or.inl (by norm_num))]
    exact congrArg (Prod.mk "suspicious") (by norm_num [min_def])

/-- Witness for C2: the second bucket applied at risk score 6 with two
indicators. -/
theorem determine_verdict_claim_witness :
    ((6 : ℕ) < 8 ∧ (2 : ℕ) < 5 ∧ (4 ≤ 6 ∨ 2 ≤ 2)) ∧
    determine_verdict 6 2 = ("suspicious", min (85/100) (6/10 + ((6 : ℕ) : ℚ) * (4/100))) :=
  ⟨⟨by decide, by decide, Or.inl (by decide)⟩,
   determine_verdict_claim.2.1 6 2 (by decide) (by decide) (Or.inl (by decide))⟩

/-- C5: the ELA tampering score is `min(1, 10·(0.7·r + 0.3·d))` for
high-error pixel fraction `r` and edge density `d`, and the pixel-error
signal mapping is: score above 0.7 → (suspicious, min(0.95, 0.6+0.3·s));
score in (0.4, 0.7] → (suspicious, min(0.85, 0.5+0.3·s)); otherwise →
(authentic, max(0.6, 0.9−0.3·s)). -/
theorem analyze_ela_patterns_claim :
    (∀ r d : ℚ, analyze_ela_patterns r d = min 1 (10 * ((7/10) * r + (3/10) * d))) ∧
    (∀ (s : ℚ) (hm : String), 7/10 < s →
      run_ela_analysis (Except.ok (s, hm))
        = ("suspicious", min (95/100) (6/10 + (3/10) * s), hm)) ∧
    (∀ (s : ℚ) (hm : String), 4/10 < s → s ≤ 7/10 →
      run_ela_analysis (Except.ok (s, hm))
        = ("suspicious", min (85/100) (5/10 + (3/10) * s), hm)) ∧
    (∀ (s : ℚ) (hm : String), s ≤ 4/10 →
      run_ela_analysis (Except.ok (s, hm))
        = ("authentic", max (6/10) (9/10 - (3/10) * s), hm)) := by
  refine ⟨?_, ?_, ?_, ?_⟩
  · intro r d
    unfold analyze_ela_patterns
    exact congrArg (min 1) (by ring)
  · intro s hm h
    simp only [run_ela_analysis]
    rw [if_pos h, mul_comm s (3/10)]
  · intro s hm h1 h2
    simp only [run_ela_analysis]
    rw [if_neg (not_lt.mpr h2), if_pos h1, mul_comm s (3/10)]
  · intro s hm h
    simp only [run_ela_analysis]
    rw [if_neg (not_lt.mpr (h.trans (by norm_num))), if_neg (not_lt.mpr h),
      mul_comm s (3/10)]

/-- Witness for C5: the top bucket applied at tampering score 0.9. -/
theorem analyze_ela_patterns_claim_witness :
    ((7 : ℚ)/10 < 9/10) ∧
    run_ela_analysis (Except.ok ((9/10 : ℚ), "heatmap.png"))
      = ("suspicious", min (95/100) (6/10 + (3/10) * (9/10)), "heatmap.png") :=
  ⟨seven_tenths_lt_nine_tenths,
   analyze_ela_patterns_claim.2.1 (9/10) "heatmap.png" seven_tenths_lt_nine_tenths⟩

/-- C6: the credibility score equals the base 10 minus 1.5 per red-flag
category, minus 2 for a negative sentiment label, minus 1 for a positive
label with score above the 0.8 threshold, minus 3 when an anomaly is
detected, clamped to [0, 10]; four red flags with strong negative
sentiment and an anomaly clamp to exactly 0, never a negative value. -/
theorem calculate_credibility_score_claim :
    (∀ (red_flags : List String) (sentiment : Sentiment) (anomaly : Bool),
      calculate_credibility_score red_flags sentiment anomaly
        = max 0 (min 10 (10 - (3/2) * (red_flags.length : ℚ)
            - (if sentiment.label = "NEGATIVE" then 2
               else if sentiment.label = "POSITIVE" ∧ sentiment.score > 8/10 then 1 else 0)
            - (if anomaly then 3 else 0)))) ∧
    (∀ (red_flags : List String) (sentiment : Sentiment) (anomaly : Bool),
      0 ≤ calculate_credibility_score red_flags sentiment anomaly ∧
      calculate_credibility_score red_flags sentiment anomaly ≤ 10) ∧
    calculate_credibility_score
        ["promotional hype", "unrealistic projections", "vague language",
         "overly optimistic claims"]
        { label := "NEGATIVE", score := 95/100 } true = 0 := by
  refine ⟨calculate_credibility_score_eq, ?_, ?_⟩
  · intro red_flags sentiment anomaly
    rw [calculate_credibility_score_eq]
    exact ⟨le_max_left 0 _, max_le (by norm_num) (min_le_left 10 _)⟩
  · rw [calculate_credibility_score_eq]
    norm_num [min_def, max_def]

/-- C8: risk score is monotone in the findings — appending any further
suspicious objects, anomalies, or structure elements never decreases it —
and each finding contributes 3 points when high-risk, 2 when medium, and
1 otherwise. -/
theorem risk_score_claim :
    (∀ (o1 o2 : List SuspiciousObject) (a1 a2 : List PdfAnomaly)
        (e1 e2 : List SuspiciousElement),
      risk_score o1 a1 e1 ≤ risk_score (o1 ++ o2) (a1 ++ a2) (e1 ++ e2)) ∧
    (∀ o : SuspiciousObject, o.risk_level = "high" → object_risk_points o = 3) ∧
    (∀ o : SuspiciousObject, o.risk_level = "medium" → object_risk_points o = 2) ∧
    (∀ o : SuspiciousObject, o.risk_level ≠ "high" → o.risk_level ≠ "medium" →
      object_risk_points o = 1) ∧
    (∀ a : PdfAnomaly, a.severity = "high" → anomaly_risk_points a = 3) ∧
    (∀ a : PdfAnomaly, a.severity = "medium" → anomaly_risk_points a = 2) ∧
    (∀ a : PdfAnomaly, a.severity ≠ "high" → a.severity ≠ "medium" →
      anomaly_risk_points a = 1) := by
  refine ⟨?_, ?_, ?_, ?_, ?_, ?_, ?_⟩
  · intro o1 o2 a1 a2 e1 e2
    rw [risk_score_eq, risk_score_eq]
    simp only [List.map_append, List.sum_append, List.length_append]
    omega
  · intro o h
    unfold object_risk_points
    rw [h]
    decide
  · intro o h
    unfold object_risk_points
    rw [h]
    decide
  · intro o h1 h2
    unfold object_risk_points
    rw [if_neg h1, if_neg h2]
  · intro a h
    unfold anomaly_risk_points
    rw [h]
    decide
  · intro a h
    unfold anomaly_risk_points
    rw [h]
    decide
  · intro a h1 h2
    unfold anomaly_risk_points
    rw [if_neg h1, if_neg h2]

/-- Witness for C8: the `/JS` object is high-risk and contributes 3, and
adding it together with the time anomaly does not decrease the score of
the empty finding set. -/
theorem risk_score_claim_witness :
    js_object.risk_level = "high" ∧ object_risk_points js_object = 3 ∧
    risk_score [] [] [] ≤ risk_score [js_object] [time_anomaly] [] :=
  ⟨by decide, risk_score_claim.2.1 js_object (by decide),
   risk_score_claim.1 [] [js_object] [] [time_anomaly] [] []⟩

/-- C9: with no classifier model loaded, or when inference raises, the
learned-classifier signal is the neutral default (authentic, 0.5); the
function is total, so no exception escapes the classifier step. -/
theorem run_cnn_analysis_claim :
    (∀ image : List ℕ, run_cnn_analysis none image = ("authentic", 1/2)) ∧
    (∀ (m : CnnModel) (image : List ℕ) (e : String),
      m.infer image = Except.error e →
      run_cnn_analysis (some m) image = ("authentic", 1/2)) := by
  constructor
  · intro image
    rfl
  · intro m image e h
    have hred : run_cnn_analysis (some m) image
        = match m.infer image with
          | Except.error _ => ("authentic", 1/2)
          | Except.ok (prediction, confidence) =>
            (if prediction = 1 then "suspicious" else "authentic", confidence) := rfl
    rw [hred, h]

/-- Witness for C9: a model whose forward pass raises still yields the
neutral default. -/
theorem run_cnn_analysis_claim_witness :
    failing_model.infer [0] = Except.error "inference failed" ∧
    run_cnn_analysis (some failing_model) [0] = ("authentic", 1/2) :=
  ⟨rfl, run_cnn_analysis_claim.2 failing_model [0] "inference failed" rfl⟩

/-- C10: when the ELA extraction pipeline itself raises, the exception is
swallowed and the ELA step reports (authentic, 0.5) with an empty heatmap
path. -/
theorem run_ela_analysis_failure_claim :
    ∀ e : String, run_ela_analysis (Except.error e) = ("authentic", 1/2, "") :=
  fun _ => rfl

/-- C3 counterexample: two uploads of byte-identical content through the
`/upload` route produce the same fingerprint yet two distinct rows with
two distinct file ids — the route never reuses the existing record. -/
theorem upload_dedup_counterexample :
    upload_second.2.length = 2 ∧
    upload_second.2.map (fun r => r.file_hash) = [sample_sha [1, 2, 3], sample_sha [1, 2, 3]] ∧
    upload_second.2.map (fun r => r.file_id) = ["id-1", "id-2"] :=
  ⟨rfl, rfl, rfl⟩

/-- C3 (amended): the fingerprint is a function of the byte content
alone, so identical bytes always hash identically; the `/upload` route
does not deduplicate, but the `/public/upload` route does — a first
upload of unseen content inserts one `pending` row, and a second upload
of the same bytes, under any filename and declared MIME type, is answered
from that existing row: same fingerprint, the first upload's file id, no
second row, and no background analysis started. -/
theorem public_upload_dedup_claim (sha256 : List ℕ → String) (id1 id2 : String)
    (db : List FileRecord) (content : List ℕ) (fn1 ct1 fn2 ct2 : String)
    (h1 : get_file_type fn1 ct1 ≠ "unknown")
    (h2 : get_file_type fn2 ct2 ≠ "unknown")
    (h0 : db.find? (fun r => r.file_hash == sha256 content) = none) :
    (public_upload sha256 id1 db content fn1 ct1).2.length = db.length + 1 ∧
    public_upload sha256 id2 (public_upload sha256 id1 db content fn1 ct1).2 content fn2 ct2
      = (PublicUploadResponse.cached id1 (sha256 content) "pending",
         (public_upload sha256 id1 db content fn1 ct1).2) := by
  rw [public_upload_new sha256 id1 db content fn1 ct1 h1 h0]
  constructor
  · simp [List.length_append]
  · refine public_upload_cached sha256 id2 _ content fn2 ct2
      { file_id := id1, file_hash := sha256 content,
        file_type := get_file_type fn1 ct1, analysis_status := "pending",
        verdict := none, confidence_score := none } h2 ?_
    rw [find?_append_none _ h0]
    simp [List.find?]

/-- Witness for the amended C3: concrete second upload of `[1, 2, 3]`
under a different filename and MIME type is served from the cached row
`id-1`. -/
theorem public_upload_dedup_claim_witness :
    (get_file_type "report.pdf" "" ≠ "unknown" ∧
     get_file_type "copy.JPG" "image/jpeg" ≠ "unknown" ∧
     List.find? (fun r => r.file_hash == sample_sha [1, 2, 3]) ([] : List FileRecord)
       = none) ∧
    public_upload sample_sha "id-2"
        (public_upload sample_sha "id-1" [] [1, 2, 3] "report.pdf" "").2
        [1, 2, 3] "copy.JPG" "image/jpeg"
      = (PublicUploadResponse.cached "id-1" (sample_sha [1, 2, 3]) "pending",
         (public_upload sample_sha "id-1" [] [1, 2, 3] "report.pdf" "").2) :=
  ⟨⟨by decide, by decide, rfl⟩,
   (public_upload_dedup_claim sample_sha "id-1" "id-2" [] [1, 2, 3] "report.pdf" ""
      "copy.JPG" "image/jpeg" (by decide) (by decide) rfl).2⟩

/-- C4 counterexample: an analysis request on a Job whose status is the
terminal `completed` is not a failure/no-op — the route resets the status
to `processing` and schedules a new background extraction task. -/
theorem analyze_terminal_counterexample :
    completed_pdf_record.analysis_status = "completed" ∧
    analyze_pdf [completed_pdf_record] "f1"
      = (AnalyzeResponse.started "f1",
         [{ completed_pdf_record with analysis_status := "processing" }], true) :=
  ⟨rfl, rfl⟩

/-- C4 (amended): only the `processing` status blocks a new analysis
request.  A request on a Job in any other status — including the terminal
`completed` and `failed` — is accepted: the status is reset to
`processing` and background extraction is restarted. -/
theorem analyze_terminal_claim (db : List FileRecord) (fid : String) (f : FileRecord)
    (hfind : db.find? (fun r => r.file_id == fid) = some f)
    (hstatus : f.analysis_status ≠ "processing") :
    (f.file_type = "pdf" →
      analyze_pdf db fid
        = (AnalyzeResponse.started fid,
           db.map (fun r =>
             if r.file_id = fid then { r with analysis_status := "processing" } else r),
           true)) ∧
    (f.file_type = "image" →
      analyze_image db fid
        = (AnalyzeResponse.started fid,
           db.map (fun r =>
             if r.file_id = fid then { r with analysis_status := "processing" } else r),
           true)) := by
  constructor
  · intro htype
    rw [analyze_pdf_some db fid f hfind, if_neg (not_not_intro htype), if_neg hstatus]
  · intro htype
    rw [analyze_image_some db fid f hfind, if_neg (not_not_intro htype), if_neg hstatus]

/-- Witness for the amended C4: the completed record is reset to
`processing` and a task is scheduled. -/
theorem analyze_terminal_claim_witness :
    (List.find? (fun r => r.file_id == "f1") [completed_pdf_record]
        = some completed_pdf_record ∧
     completed_pdf_record.analysis_status ≠ "processing" ∧
     completed_pdf_record.file_type = "pdf") ∧
    analyze_pdf [completed_pdf_record] "f1"
      = (AnalyzeResponse.started "f1",
         [completed_pdf_record].map (fun r =>
           if r.file_id = "f1" then { r with analysis_status := "processing" } else r),
         true) :=
  ⟨⟨rfl, by decide, rfl⟩,
   (analyze_terminal_claim [completed_pdf_record] "f1" completed_pdf_record rfl
      (by decide)).1 rfl⟩

/-- C7: an analysis request on a file already `processing` answers "in
progress", schedules no background task, and performs no write — the
`files` table is returned unchanged. -/
theorem analyze_processing_claim (db : List FileRecord) (fid : String) (f : FileRecord)
    (hfind : db.find? (fun r => r.file_id == fid) = some f)
    (hstatus : f.analysis_status = "processing") :
    (f.file_type = "pdf" →
      analyze_pdf db fid = (AnalyzeResponse.already_processing fid, db, false)) ∧
    (f.file_type = "image" →
      analyze_image db fid = (AnalyzeResponse.already_processing fid, db, false)) := by
  constructor
  · intro htype
    rw [analyze_pdf_some db fid f hfind, if_neg (not_not_intro htype), if_pos hstatus]
  · intro htype
    rw [analyze_image_some db fid f hfind, if_neg (not_not_intro htype), if_pos hstatus]

/-- Witness for C7: a concrete `processing` pdf row is answered with the
in-progress response and an unchanged table. -/
theorem analyze_processing_claim_witness :
    (List.find? (fun r => r.file_id == "f2") [processing_pdf_record]
        = some processing_pdf_record ∧
     processing_pdf_record.analysis_status = "processing" ∧
     processing_pdf_record.file_type = "pdf") ∧
    analyze_pdf [processing_pdf_record] "f2"
      = (AnalyzeResponse.already_processing "f2", [processing_pdf_record], false) :=
  ⟨⟨rfl, rfl, rfl⟩,
   (analyze_processing_claim [processing_pdf_record] "f2" processing_pdf_record rfl rfl).1
     rfl⟩

end FactChecker
